import Mathlib

/-!
Verification of the runtime-invocation and process-lifecycle core of the
`ytoml/rust-extensions` repository (crates `runc-rust` and `shim-runc`),
as a shallow embedding in Lean 4.

Conventions of the embedding:
* Rust `String` values that originate from captured process output are
  modelled as their byte sequences (`List Nat`); `String::from_utf8` is
  modelled by a UTF-8 validator returning `Option`.
* Fallible Rust functions returning `Result` are modelled with `Except`.
* A Rust panic (e.g. `.unwrap()` on an `Err`) is modelled by an outer
  `Option` being `none`.
* Operating-system effects on file descriptors are modelled by explicit
  state passing over an `FdState` that records the open descriptors and
  how many times `close(2)` has been issued on each descriptor number.
-/

namespace Spec2Proof

/-- `std::process::ExitStatus`: on unix, `success()` holds iff the exit
code is zero.  Modelled by its exit code. -/
structure ExitStatus where
  code : Int
deriving DecidableEq, Repr

/-- `ExitStatus::success` (exit code zero). -/
def ExitStatus.success (s : ExitStatus) : Bool := s.code == 0

/-- The `runc-rust` error enum, as used by `src/crates/runc-rust/src/lib.rs`
(`Error::ProcessSpawnError`, `Error::CommandError`,
`Error::CommandTimeoutError`, `Error::CommandFaliedError`,
`Error::UnimplementedError`).  OS-level error payloads are modelled by
their raw error code. -/
inductive RuncErr where
  | processSpawnError (osCode : Nat)
  | commandError (osCode : Nat)
  | commandTimeoutError
  | commandFaliedError (status : ExitStatus) (stdout stderr : List Nat)
  | unimplementedError (verb : String)
deriving DecidableEq, Repr

/-- `RuncResponse` from `lib.rs` lines 79-84: pid, exit status, output. -/
structure RuncResponse where
  pid : Nat
  status : ExitStatus
  output : List Nat
deriving DecidableEq, Repr

/-- A UTF-8 continuation byte (`0x80..=0xBF`). -/
def utf8Cont (b : Nat) : Bool := decide (0x80 ≤ b) && decide (b < 0xC0)

/-- Validity of a byte sequence as UTF-8, following the encoding rules
enforced by Rust's `String::from_utf8` (RFC 3629: no overlong forms, no
surrogate code points, maximum scalar value 0x10FFFF). -/
def utf8Validate : List Nat → Bool
  | [] => true
  | b :: t =>
    if b < 0x80 then utf8Validate t
    else if b < 0xC2 then false
    else if b < 0xE0 then
      match t with
      | b1 :: t1 => utf8Cont b1 && utf8Validate t1
      | [] => false
    else if b = 0xE0 then
      match t with
      | b1 :: b2 :: t2 =>
        (decide (0xA0 ≤ b1) && decide (b1 < 0xC0)) && utf8Cont b2 && utf8Validate t2
      | _ => false
    else if b = 0xED then
      match t with
      | b1 :: b2 :: t2 =>
        (decide (0x80 ≤ b1) && decide (b1 < 0xA0)) && utf8Cont b2 && utf8Validate t2
      | _ => false
    else if b < 0xF0 then
      match t with
      | b1 :: b2 :: t2 => utf8Cont b1 && utf8Cont b2 && utf8Validate t2
      | _ => false
    else if b = 0xF0 then
      match t with
      | b1 :: b2 :: b3 :: t3 =>
        (decide (0x90 ≤ b1) && decide (b1 < 0xC0)) && utf8Cont b2 && utf8Cont b3 &&
          utf8Validate t3
      | _ => false
    else if b < 0xF4 then
      match t with
      | b1 :: b2 :: b3 :: t3 =>
        utf8Cont b1 && utf8Cont b2 && utf8Cont b3 && utf8Validate t3
      | _ => false
    else if b = 0xF4 then
      match t with
      | b1 :: b2 :: b3 :: t3 =>
        (decide (0x80 ≤ b1) && decide (b1 < 0x90)) && utf8Cont b2 && utf8Cont b3 &&
          utf8Validate t3
      | _ => false
    else false

/-- `String::from_utf8`: succeeds (returning the byte sequence, which we
use directly as the model of the resulting `String`) exactly when the
bytes are valid UTF-8. -/
def utf8Decode (bs : List Nat) : Option (List Nat) :=
  if utf8Validate bs then some bs else none

/-- What one run of the external binary actually did: its exit status and
the bytes it wrote to its stdout and stderr streams. -/
structure ProcessOutcome where
  status : ExitStatus
  stdoutBytes : List Nat
  stderrBytes : List Nat
deriving DecidableEq, Repr

/-- The full observable behaviour of one invocation attempt of the
external binary: whether `spawn` fails (with an OS error code), whether
waiting for the child fails, the child's pid, and what the child did. -/
structure ExecBehavior where
  spawnFail : Option Nat
  waitFail : Option Nat
  pid : Nat
  outcome : ProcessOutcome
deriving DecidableEq, Repr

/-- Stream capture as performed by `wait_with_output`: the captured bytes
of a standard stream are the child's actual bytes when the stream was set
to `Stdio::piped()`, and empty when the stream was inherited (no pipe to
read from). -/
def capture (piped : Bool) (bytes : List Nat) : List Nat :=
  if piped then bytes else []

/-- The `std::process::Output` of `wait_with_output`: exit status plus the
two captured streams. -/
structure WaitOutput where
  status : ExitStatus
  stdout : List Nat
  stderr : List Nat
deriving DecidableEq, Repr

namespace RuncClient

/-- `RuncClient::command_raw`, lib.rs lines 252-279: the part after
`wait_with_output` returned `Ok(result)`.  Converts each captured stream
with `String::from_utf8(..).unwrap()` (a panic, modelled as `none`, when
the bytes are not valid UTF-8); on a successful exit status builds a
`RuncResponse` whose output is stdout, or stdout concatenated with stderr
when `combined_output` holds; on a non-zero exit status returns
`Error::CommandFaliedError` with the status and both streams. -/
def command_raw_tail (pid : Nat) (w : WaitOutput) (combined_output : Bool) :
    Option (Except RuncErr RuncResponse) :=
  match utf8Decode w.stdout, utf8Decode w.stderr with
  | some stdout, some stderr =>
    some (if w.status.success then
      Except.ok
        { pid := pid, status := w.status,
          output := if combined_output then stdout ++ stderr else stdout }
    else
      Except.error (RuncErr.commandFaliedError w.status stdout stderr))
  | _, _ => none

/-- The spawn performed by `RuncClient::spawn_raw`, lib.rs lines 221-231:
`Command::new(..).args(..).stdin(Stdio::null()).spawn()`.  Note that
stdout and stderr are NOT set to `Stdio::piped()` here, so
`wait_with_output` has no pipes to read and captures empty streams. -/
def syncWait (b : ExecBehavior) : WaitOutput :=
  { status := b.outcome.status,
    stdout := capture false b.outcome.stdoutBytes,
    stderr := capture false b.outcome.stderrBytes }

/-- `RuncClient::command_raw`, lib.rs lines 240-279, over the behaviour of
one invocation: spawn via `spawn_raw` (spawn failure becomes
`Error::ProcessSpawnError`), wait via `wait_with_output` (wait failure
becomes `Error::CommandError`), then the result mapping of
`command_raw_tail`. -/
def command_raw (b : ExecBehavior) (combined_output : Bool) :
    Option (Except RuncErr RuncResponse) :=
  match b.spawnFail with
  | some e => some (Except.error (RuncErr.processSpawnError e))
  | none =>
    match b.waitFail with
    | some e => some (Except.error (RuncErr.commandError e))
    | none => command_raw_tail b.pid (syncWait b) combined_output

/-- The verb-specific argument vector built by `RuncClient::resume`,
lib.rs line 410: `["pause".to_string(), id.to_string()]` (passed to
`self.command`, which prepends the global flags in front of it). -/
def resume_args (id : String) : List String := ["pause", id]

end RuncClient

namespace RuncAsyncClient

/-- `RuncAsyncClient::command`, lib.rs lines 506-523: the part after the
awaited `wait_with_output` returned `Ok(result)`.  Identical stream
decoding and exit-status mapping to the blocking client, but the success
payload is only the output string (no pid, no status). -/
def command_tail (w : WaitOutput) (combined_output : Bool) :
    Option (Except RuncErr (List Nat)) :=
  match utf8Decode w.stdout, utf8Decode w.stderr with
  | some stdout, some stderr =>
    some (if w.status.success then
      Except.ok (if combined_output then stdout ++ stderr else stdout)
    else
      Except.error (RuncErr.commandFaliedError w.status stdout stderr))
  | _, _ => none

/-- The spawn performed by `RuncAsyncClient::command`, lib.rs lines
493-499: stdin null, and stdout and stderr both set to `Stdio::piped()`,
so `wait_with_output` captures the child's actual stream bytes. -/
def asyncWait (b : ExecBehavior) : WaitOutput :=
  { status := b.outcome.status,
    stdout := capture true b.outcome.stdoutBytes,
    stderr := capture true b.outcome.stderrBytes }

/-- `RuncAsyncClient::command`, lib.rs lines 491-523, over the behaviour
of one invocation: spawn (failure becomes `Error::ProcessSpawnError`),
then `time::timeout(self.0.timeout, proc.wait_with_output())`: if the
timeout elapses first the call fails with `Error::CommandTimeoutError`,
a wait failure becomes `Error::CommandError`, and otherwise the captured
output is mapped by `command_tail`. -/
def command (b : ExecBehavior) (timedOut : Bool) (combined_output : Bool) :
    Option (Except RuncErr (List Nat)) :=
  match b.spawnFail with
  | some e => some (Except.error (RuncErr.processSpawnError e))
  | none =>
    if timedOut then some (Except.error RuncErr.commandTimeoutError)
    else
      match b.waitFail with
      | some e => some (Except.error (RuncErr.commandError e))
      | none => command_tail (asyncWait b) combined_output

/-- The verb-specific argument vector built by `RuncAsyncClient::resume`,
lib.rs line 650: `["pause".to_string(), id.to_string()]`. -/
def resume_args (id : String) : List String := ["pause", id]

end RuncAsyncClient

/-! ## The I/O plumbing layer: `src/crates/runc-rust/src/io.rs`

File descriptors are raw integers (`RawFd`).  The OS side is modelled by
an `FdState`: a fresh-descriptor allocator, the list of currently open
descriptors, and a per-descriptor count of how many times the `close(2)`
syscall has been issued on that descriptor number (a second `close` on
the same number is what the double-close hazard is about). -/

/-- `Pipe` from io.rs lines 197-202: one OS pipe held as two raw file
descriptors (no ownership tracking beyond the raw values). -/
structure Pipe where
  read_fd : Nat
  write_fd : Nat
deriving DecidableEq, Repr

/-- The OS-level descriptor state threaded through the embedding. -/
structure FdState where
  nextFd : Nat
  openFds : List Nat
  closeCalls : Nat → Nat

/-- Issuing `close(2)` on a raw descriptor number: the descriptor (first
occurrence) leaves the open set, and the close count of that number goes
up by one whether or not it was still open. -/
def closeFd (fd : Nat) (s : FdState) : FdState :=
  { s with
    openFds := s.openFds.erase fd,
    closeCalls := fun x => if x = fd then s.closeCalls x + 1 else s.closeCalls x }

/-- `Pipe::close_read`, io.rs line 232: `drop(File::from_raw_fd(self.read_fd))`
issues `close(2)` on the raw read descriptor. -/
def Pipe.close_read (p : Pipe) (s : FdState) : FdState := closeFd p.read_fd s

/-- `Pipe::close_write`, io.rs line 228. -/
def Pipe.close_write (p : Pipe) (s : FdState) : FdState := closeFd p.write_fd s

/-- `Pipe::close`, io.rs lines 236-239: `close_read` then `close_write`.
`&self` is not mutated, so nothing records that the pipe was closed. -/
def Pipe.close (p : Pipe) (s : FdState) : FdState :=
  p.close_write (p.close_read s)

/-- `nix::unistd::pipe()` as called by `Pipe::new`, io.rs line 206:
allocates two fresh descriptors (read end, write end), both open. -/
def pipeAlloc (s : FdState) : FdState × Pipe :=
  ({ s with
      nextFd := s.nextFd + 2,
      openFds := s.nextFd :: (s.nextFd + 1) :: s.openFds },
    { read_fd := s.nextFd, write_fd := s.nextFd + 1 })

/-- `RuncPipedIO` from io.rs lines 70-75 (name spelt `RuncPipedIo` here):
optional pipes for stdin, stdout, stderr. -/
structure RuncPipedIo where
  stdin : Option Pipe
  stdout : Option Pipe
  stderr : Option Pipe
deriving DecidableEq, Repr

/-- `RuncPipedIO::close`, io.rs lines 138-148: unconditionally calls
`Pipe::close` on each pipe that is present.  The fields stay `Some`:
nothing marks the pipes as already closed. -/
def RuncPipedIo.close (io_ : RuncPipedIo) (s : FdState) : FdState :=
  let s1 := match io_.stdin with
    | some p => p.close s
    | none => s
  let s2 := match io_.stdout with
    | some p => p.close s1
    | none => s1
  match io_.stderr with
  | some p => p.close s2
  | none => s2

/-- `IOOption` from io.rs lines 53-58. -/
structure IOOption where
  open_stdin : Bool
  open_stdout : Bool
  open_stderr : Bool
deriving DecidableEq, Repr

/-- Which of the syscalls issued by `RuncPipedIO::new` fail: for each
requested stream, `Pipe::new` (the `pipe(2)` call) and the subsequent
`nix::unistd::fchown` can each fail with an OS error. -/
structure NewFailures where
  stdin_pipe : Bool
  stdin_chown : Bool
  stdout_pipe : Bool
  stdout_chown : Bool
  stderr_pipe : Bool
  stderr_chown : Bool
deriving DecidableEq, Repr

/-- One stream block of `RuncPipedIO::new` (io.rs lines 81-87 for stdin,
89-95 for stdout, 97-103 for stderr): `let pipe = Pipe::new()?;
nix::unistd::fchown(..)?; Some(pipe)`.  If `pipe(2)` fails, nothing was
opened; if `fchown` fails, the `?` return drops the freshly bound local
`pipe`, and `impl Drop for Pipe` (io.rs lines 242-246) closes both ends.
`fchown` itself has no effect on the descriptor state. -/
def pipeStep (pipeFail chownFail : Bool) (s : FdState) :
    FdState × Except Unit Pipe :=
  if pipeFail then (s, Except.error ())
  else
    let (s1, p) := pipeAlloc s
    if chownFail then (p.close s1, Except.error ())
    else (s1, Except.ok p)

/-- One stream of `RuncPipedIO::new`: runs the block above only when the
stream is requested by `opts`, otherwise contributes `None`. -/
def streamStep (requested pipeFail chownFail : Bool) (s : FdState) :
    FdState × Except Unit (Option Pipe) :=
  if requested then
    match pipeStep pipeFail chownFail s with
    | (s1, Except.ok p) => (s1, Except.ok (some p))
    | (s1, Except.error _) => (s1, Except.error ())
  else (s, Except.ok none)

/-- Dropping an `Option<Pipe>` local: `impl Drop for Pipe` closes both
ends of the pipe if one is present. -/
def dropOptPipe (o : Option Pipe) (s : FdState) : FdState :=
  match o with
  | some p => p.close s
  | none => s

/-- `RuncPipedIO::new`, io.rs lines 78-110: builds the stdin, stdout and
stderr pipes in that order.  When a later step fails, the `?` return
runs the drop glue for the locals already bound — the still-live earlier
`Option<Pipe>` locals are dropped (closing their pipes) before the error
propagates; on success all three options are moved into the returned
struct and stay open. -/
def RuncPipedIo.new (fl : NewFailures) (opts : IOOption) (s : FdState) :
    FdState × Except Unit RuncPipedIo :=
  match streamStep opts.open_stdin fl.stdin_pipe fl.stdin_chown s with
  | (s1, Except.error _) => (s1, Except.error ())
  | (s1, Except.ok sin) =>
    match streamStep opts.open_stdout fl.stdout_pipe fl.stdout_chown s1 with
    | (s2, Except.error _) => (dropOptPipe sin s2, Except.error ())
    | (s2, Except.ok sout) =>
      match streamStep opts.open_stderr fl.stderr_pipe fl.stderr_chown s2 with
      | (s3, Except.error _) => (dropOptPipe sin (dropOptPipe sout s3), Except.error ())
      | (s3, Except.ok serr) =>
        (s3, Except.ok { stdin := sin, stdout := sout, stderr := serr })

/-! ## The process registry: `src/crates/shim-runc/src/container.rs` -/

/-- The `std::io::Error` values produced by the registry code: lookup
failure is `io::ErrorKind::NotFound`; any other failure bubbling out of
the opaque process wrapper is collapsed into `other`. -/
inductive IoErr where
  | notFound
  | other
deriving DecidableEq, Repr

/-- Modelled from the spec: `InitProcess` (crate module
`process::init`, not part of the provided sources) is the opaque
external process-wrapper collaborator, "an abstract interface with
operations {start, delete, kill, pid, exit_status, exited_at}".  We keep
the three observations the registry reads back, plus whether this
process's `delete()` operation succeeds.  Timestamps are modelled as
natural numbers. -/
structure InitProcess where
  pid : Int
  exit_status : Int
  exited_at : Option Nat
  delete_ok : Bool
deriving DecidableEq, Repr

/-- `HashMap<String, InitProcess>` modelled as an association list whose
keys are unique (the `HashMap` invariant); lookup takes the first entry
with the key. -/
def mapLookup (m : List (String × InitProcess)) (k : String) : Option InitProcess :=
  match m.find? (fun e => e.1 = k) with
  | some e => some e.2
  | none => none

/-- `HashMap::remove`: drops the entry with the key.  (On unique-key
lists, removing every entry with the key equals removing the one entry.) -/
def mapRemove (m : List (String × InitProcess)) (k : String) :
    List (String × InitProcess) :=
  m.filter (fun e => e.1 ≠ k)

/-- `Container` from container.rs lines 51-62: the container id, bundle
path, the primary process (`process_self`) and the secondary-process map
(`processes`).  The mutex only guards map access and carries no data, so
it has no counterpart in the sequential embedding. -/
structure Container where
  id : String
  bundle : String
  process_self : InitProcess
  processes : List (String × InitProcess)
deriving DecidableEq, Repr

/-- `Container::process` (container.rs lines 240-252) and
`Container::process_mut` (lines 254-266), which share the same lookup
logic: an empty id or the container's own id resolves to the primary
process; any other id is looked up in the secondary map, and a missing
key becomes `io::ErrorKind::NotFound`. -/
def Container.process (c : Container) (id : String) : Except IoErr InitProcess :=
  if id = "" ∨ id = c.id then Except.ok c.process_self
  else
    match mapLookup c.processes id with
    | some p => Except.ok p
    | none => Except.error IoErr.notFound

/-- `Container::process_remove`, container.rs lines 235-238:
`self.processes.remove(id)`. -/
def Container.process_remove (c : Container) (id : String) :
    Option InitProcess × Container :=
  (mapLookup c.processes id, { c with processes := mapRemove c.processes id })

/-- `Container::delete`, container.rs lines 276-295: resolve the target
via `process_mut(&req.exec_id)` and run its `delete()` (a failure of
either propagates).  Then, if the exec id is non-empty, remove that key
from the secondary map (`NotFound` if absent) and return the removed
process's (pid, exit status, exited-at); if the exec id is empty, return
the primary process's values without removing anything.  The returned
container is the registry state afterwards. -/
def Container.delete (c : Container) (exec_id : String) :
    Except IoErr (Container × Int × Int × Option Nat) :=
  match c.process exec_id with
  | Except.error e => Except.error e
  | Except.ok p =>
    if p.delete_ok = false then Except.error IoErr.other
    else if exec_id ≠ "" then
      match c.process_remove exec_id with
      | (some q, c1) => Except.ok (c1, q.pid, q.exit_status, q.exited_at)
      | (none, _) => Except.error IoErr.notFound
    else
      Except.ok (c, c.process_self.pid, c.process_self.exit_status,
        c.process_self.exited_at)

/-- The `ttrpc::Error` values used by the unimplemented verb stubs in
container.rs: every stub returns the crate's generic catch-all string
variant `ttrpc::Error::Others`. -/
inductive TtrpcErr where
  | others (msg : String)
deriving DecidableEq, Repr

/-- `Container::exec`, container.rs lines 297-301. -/
def Container.exec (_c : Container) : Except TtrpcErr Unit :=
  Except.error (TtrpcErr.others "not implemented yet")

/-- `Container::pause`, container.rs lines 303-307. -/
def Container.pause (_c : Container) : Except TtrpcErr Unit :=
  Except.error (TtrpcErr.others "not implemented yet")

/-- `Container::resume`, container.rs lines 309-313. -/
def Container.resume (_c : Container) : Except TtrpcErr Unit :=
  Except.error (TtrpcErr.others "not implemented yet")

/-- `Container::resize_pty`, container.rs lines 315-319. -/
def Container.resize_pty (_c : Container) : Except TtrpcErr Unit :=
  Except.error (TtrpcErr.others "not implemented yet")

/-- `Container::close_io`, container.rs lines 326-330. -/
def Container.close_io (_c : Container) : Except TtrpcErr Unit :=
  Except.error (TtrpcErr.others "not implemented yet")

/-- `Container::checkpoint`, container.rs lines 332-336. -/
def Container.checkpoint (_c : Container) : Except TtrpcErr Unit :=
  Except.error (TtrpcErr.others "not implemented yet")

/-- `Container::update`, container.rs lines 338-342. -/
def Container.update (_c : Container) : Except TtrpcErr Unit :=
  Except.error (TtrpcErr.others "not implemented yet")

/-- `Container::has_pid`, container.rs lines 344-348. -/
def Container.has_pid (_c : Container) : Except TtrpcErr Unit :=
  Except.error (TtrpcErr.others "not implemented yet")

/-! ## Per-bundle persisted state: `read_options` / `read_runtime` -/

/-- Modelled from the spec: the `Options` document (module `options::oci`,
generated protobuf code not part of the provided sources) — "a small
options document ... written once per container bundle directory"; only
the runtime binary name matters to the code shown. -/
structure Options where
  binary_name : String
deriving DecidableEq, Repr

/-- A file on disk as seen by an open call: absent, or present with some
content. -/
inductive FileState (α : Type) where
  | absent
  | present (content : α)
deriving DecidableEq, Repr

/-- `read_options`, container.rs lines 366-380: if `File::open` fails
(in particular when the options file does not exist) the function
returns `Ok(None)`; otherwise the content is parsed with
`Message::parse_from_reader` (modelled by the `parse` argument), a parse
failure propagating as an error. -/
def read_options (f : FileState (List Nat))
    (parse : List Nat → Except IoErr Options) : Except IoErr (Option Options) :=
  match f with
  | FileState.absent => Except.ok none
  | FileState.present bytes =>
    match parse bytes with
    | Except.ok o => Except.ok (some o)
    | Except.error e => Except.error e

/-- The line-concatenation loop of `read_runtime`, container.rs lines
407-411.  Note `read_line` appends to `buf` without clearing it, and
`res.push_str(&buf)` then appends the whole accumulated buffer. -/
def read_runtime_loop : List String → String → String → String
  | [], _, res => res
  | l :: ls, buf, res => read_runtime_loop ls (buf ++ l) (res ++ buf ++ l)

/-- `read_runtime`, container.rs lines 400-413: opening the `runtime`
file with `fs::OpenOptions::new().read(true).open(..)?` propagates the
OS error when the file is absent (a `NotFound` error); when present, the
file's lines are accumulated by the loop above. -/
def read_runtime (f : FileState (List String)) : Except IoErr String :=
  match f with
  | FileState.absent => Except.error IoErr.notFound
  | FileState.present lines => Except.ok (read_runtime_loop lines "" "")

/-- Whether an `Except` result is a success. -/
def exceptIsOk {ε α : Type} (e : Except ε α) : Bool :=
  match e with
  | Except.ok _ => true
  | Except.error _ => false

/-! ## Concrete fixtures and auxiliary definitions for the theorems -/

/-- The effect of dropping an `Option<Pipe>` on the open-descriptor list
alone (close of the read end, then of the write end). -/
def dropOptFds (o : Option Pipe) (l : List Nat) : List Nat :=
  match o with
  | some p => (l.erase p.read_fd).erase p.write_fd
  | none => l

/-- A fixture primary process. -/
def procA : InitProcess := ⟨100, 0, none, true⟩

/-- A fixture secondary process registered under the container's own id. -/
def procB : InitProcess := ⟨200, 1, some 5, true⟩

/-- A fixture secondary process registered under exec id `e1`. -/
def procC : InitProcess := ⟨300, 2, some 9, true⟩

/-- A fixture container whose secondary map is non-empty and contains an
entry whose key coincides with the container id itself. -/
def contW : Container := ⟨"cid", "/bundle", procA, [("cid", procB), ("e1", procC)]⟩

/-- A fixture IOSet owning a stdin pipe (descriptors 3, 4) and a stdout
pipe (descriptors 5, 6). -/
def doubleCloseIo : RuncPipedIo := ⟨some ⟨3, 4⟩, some ⟨5, 6⟩, none⟩

/-- A descriptor state in which exactly the fixture IOSet's four
descriptors are open and no close syscall has been issued yet. -/
def doubleCloseSt : FdState := ⟨7, [3, 4, 5, 6], fun _ => 0⟩

/-- An invocation in which the external binary exits 0 after writing the
single byte 0x78 to stdout; spawn and wait both succeed. -/
def divergeBehavior : ExecBehavior :=
  { spawnFail := none, waitFail := none, pid := 7,
    outcome := { status := ⟨0⟩, stdoutBytes := [120], stderrBytes := [] } }

/-- A fixture container for exercising the unimplemented verb stubs. -/
def stubContainer : Container := ⟨"cid", "/bundle", ⟨1, 0, none, true⟩, []⟩

/-! ## Helper lemmas -/

/-- Removing a key from the secondary map makes a subsequent lookup of
that key fail. -/
theorem mapLookup_mapRemove (m : List (String × InitProcess)) (k : String) :
    mapLookup (mapRemove m k) k = none := by
  have h : List.find? (fun e => decide (e.1 = k)) (mapRemove m k) = none := by
    rw [List.find?_eq_none]
    intro x hx
    simp [mapRemove] at hx
    simp [hx.2]
  unfold mapLookup
  rw [h]

/-- Dropping an optional pipe only erases its two descriptors from the
open list. -/
theorem dropOptPipe_openFds (o : Option Pipe) (s : FdState) :
    (dropOptPipe o s).openFds = dropOptFds o s.openFds := by
  cases o <;> rfl

/-- A failing stream block of `RuncPipedIO::new` leaves the set of open
descriptors exactly as it found it (the freshly created pipe, if any,
was closed by the drop glue before the error propagated). -/
theorem streamStep_error_openFds (r pf cf : Bool) (s s1 : FdState)
    (h : streamStep r pf cf s = (s1, Except.error ())) :
    s1.openFds = s.openFds := by
  cases r <;> cases pf <;> cases cf <;>
    simp [streamStep, pipeStep, pipeAlloc, Pipe.close, Pipe.close_read, Pipe.close_write,
      closeFd] at h <;>
    subst h <;> rfl

/-- A succeeding stream block of `RuncPipedIO::new` opens exactly the
descriptors of the pipe it returns: dropping that pipe restores the
open-descriptor list. -/
theorem streamStep_ok_dropFds (r pf cf : Bool) (s s1 : FdState) (o : Option Pipe)
    (h : streamStep r pf cf s = (s1, Except.ok o)) :
    dropOptFds o s1.openFds = s.openFds := by
  cases r <;> cases pf <;> cases cf <;>
    simp [streamStep, pipeStep, pipeAlloc] at h <;>
    obtain ⟨h1, h2⟩ := h <;> subst h1 <;> subst h2 <;>
    simp [dropOptFds, List.erase_cons_head]

/-! ## The claims -/

/-- Claim C1: for every blocking invocation via `RuncClient::command_raw`
in which the spawn and the wait succeed, a zero exit status yields a
successful `RuncResponse` whose output equals the captured stdout (the
captured stdout concatenated with the captured stderr when
`combined_output` holds), and a non-zero exit status yields
`Error::CommandFaliedError` carrying that exact exit status together
with both captured streams separately — never a success result. -/
theorem command_raw_exit_status_mapping (b : ExecBehavior) (comb : Bool)
    (hs : b.spawnFail = none) (hw : b.waitFail = none) :
    (b.outcome.status.success = true →
      RuncClient.command_raw b comb =
        some (Except.ok
          { pid := b.pid, status := b.outcome.status,
            output := if comb then
                (RuncClient.syncWait b).stdout ++ (RuncClient.syncWait b).stderr
              else (RuncClient.syncWait b).stdout })) ∧
    (b.outcome.status.success = false →
      RuncClient.command_raw b comb =
        some (Except.error (RuncErr.commandFaliedError b.outcome.status
          (RuncClient.syncWait b).stdout (RuncClient.syncWait b).stderr))) := by
  have hnil : utf8Validate [] = true := rfl
  constructor <;> intro h <;>
    simp [RuncClient.command_raw, hs, hw, RuncClient.command_raw_tail,
      RuncClient.syncWait, capture, utf8Decode, hnil, h]

/-- Claim C1 witness: a binary exiting 1 with empty streams yields
exactly `Error::CommandFaliedError` with status 1 and both streams. -/
theorem command_raw_exit_status_mapping_witness :
    RuncClient.command_raw ⟨none, none, 7, ⟨⟨1⟩, [], []⟩⟩ true =
      some (Except.error (RuncErr.commandFaliedError ⟨1⟩ [] [])) :=
  (command_raw_exit_status_mapping ⟨none, none, 7, ⟨⟨1⟩, [], []⟩⟩ true rfl rfl).2 (by decide)

/-- Claim C2 (code bug): calling `RuncPipedIO::close` twice re-issues
the `close(2)` syscall on every owned raw descriptor a second time —
`Pipe` tracks no consumed flag, so close is not idempotent and each
descriptor number is closed more than once (after the first close the
number may already belong to an unrelated descriptor). -/
theorem piped_io_double_close_recloses_fds :
    (doubleCloseIo.close doubleCloseSt).closeCalls 3 = 1 ∧
    (doubleCloseIo.close (doubleCloseIo.close doubleCloseSt)).closeCalls 3 = 2 ∧
    (doubleCloseIo.close (doubleCloseIo.close doubleCloseSt)).closeCalls 4 = 2 ∧
    (doubleCloseIo.close (doubleCloseIo.close doubleCloseSt)).closeCalls 5 = 2 ∧
    (doubleCloseIo.close (doubleCloseIo.close doubleCloseSt)).closeCalls 6 = 2 :=
  ⟨rfl, rfl, rfl, rfl, rfl⟩

/-- Claim C3: `Container::process` resolves the empty id and the
container's own id to the primary process — even when the secondary map
is non-empty and contains an entry keyed by the container id — and
resolves any other id through the secondary map, failing with NotFound
exactly when the key is absent. -/
theorem container_process_resolution (c : Container) (id : String)
    (h1 : id ≠ "") (h2 : id ≠ c.id) :
    c.process "" = Except.ok c.process_self ∧
    c.process c.id = Except.ok c.process_self ∧
    (mapLookup c.processes id = none → c.process id = Except.error IoErr.notFound) ∧
    (∀ p, mapLookup c.processes id = some p → c.process id = Except.ok p) := by
  refine ⟨by simp [Container.process], by simp [Container.process], ?_, ?_⟩
  · intro h; simp [Container.process, h1, h2, h]
  · intro p h; simp [Container.process, h1, h2, h]

/-- Claim C3 witness: on the fixture container — whose secondary map
contains an entry keyed by the container's own id — resolution of the
empty id and of the container id yields the primary process, and an
absent id yields NotFound. -/
theorem container_process_resolution_witness :
    contW.process "" = Except.ok procA ∧
    contW.process "cid" = Except.ok procA ∧
    contW.process "zz" = Except.error IoErr.notFound := by
  have h := container_process_resolution contW "zz" (by decide) (by decide)
  exact ⟨h.1, h.2.1, h.2.2.1 (by decide)⟩

/-- Claim C4: `Container::delete` on a request whose exec id names a
secondary process removes that entry from the registry and returns its
final (pid, exit status, exit timestamp), so a subsequent resolve of the
same exec id fails with NotFound; `Container::delete` on the primary
process (empty exec id) never removes the primary from the registry. -/
theorem container_delete_secondary_removal (c : Container) (eid : String) (p : InitProcess)
    (h1 : eid ≠ "") (h2 : eid ≠ c.id)
    (h3 : mapLookup c.processes eid = some p)
    (h4 : p.delete_ok = true) (h5 : c.process_self.delete_ok = true) :
    c.delete eid =
      Except.ok ({ c with processes := mapRemove c.processes eid },
        p.pid, p.exit_status, p.exited_at) ∧
    Container.process { c with processes := mapRemove c.processes eid } eid =
      Except.error IoErr.notFound ∧
    c.delete "" = Except.ok (c, c.process_self.pid, c.process_self.exit_status,
      c.process_self.exited_at) := by
  refine ⟨?_, ?_, ?_⟩
  · simp [Container.delete, Container.process, Container.process_remove, h1, h2, h3, h4]
  · simp [Container.process, h1, h2, mapLookup_mapRemove]
  · simp [Container.delete, Container.process, h5]

/-- Claim C4 witness: deleting exec id `e1` on the fixture container
removes it, returns (300, 2, some 9), and a subsequent resolve of `e1`
fails with NotFound; deleting with the empty exec id leaves the registry
untouched. -/
theorem container_delete_secondary_removal_witness :
    contW.delete "e1" =
      Except.ok (⟨"cid", "/bundle", procA, [("cid", procB)]⟩, 300, 2, some 9) ∧
    Container.process ⟨"cid", "/bundle", procA, [("cid", procB)]⟩ "e1" =
      Except.error IoErr.notFound ∧
    contW.delete "" = Except.ok (contW, 100, 0, none) := by
  have h := container_delete_secondary_removal contW "e1" procC (by decide) (by decide)
    (by decide) rfl rfl
  exact ⟨h.1, h.2.1, h.2.2⟩

/-- Claim C5 (code bug): the blocking and cooperative invocation modes
do NOT produce identical semantics for the same external-binary outcome:
`RuncClient::command_raw` spawns without piping stdout/stderr, so
`wait_with_output` captures nothing and the successful output is empty,
while `RuncAsyncClient::command` pipes both streams and returns the
binary's actual stdout.  For a binary exiting 0 after writing the byte
0x78, the blocking result's output is `[]` and the cooperative result is
`[0x78]`. -/
theorem sync_async_command_outputs_diverge :
    RuncClient.command_raw divergeBehavior false =
      some (Except.ok { pid := 7, status := ⟨0⟩, output := [] }) ∧
    RuncAsyncClient.command divergeBehavior false false =
      some (Except.ok [120]) ∧
    ([] : List Nat) ≠ [120] :=
  ⟨rfl, rfl, by decide⟩

/-- Claim C6: whenever `RuncPipedIO::new` fails partway through
construction (a `pipe(2)` or `fchown` failure after earlier pipes were
already opened), every pipe opened so far is closed before the error
propagates — the set of open descriptors is exactly what it was before
the call, and no partially constructed IOSet is returned. -/
theorem piped_io_new_closes_partial_pipes_on_error
    (fl : NewFailures) (opts : IOOption) (s : FdState)
    (h : (RuncPipedIo.new fl opts s).2 = Except.error ()) :
    (RuncPipedIo.new fl opts s).1.openFds = s.openFds := by
  rcases e1 : streamStep opts.open_stdin fl.stdin_pipe fl.stdin_chown s with ⟨s1, r1⟩
  cases r1 with
  | error u =>
    cases u
    simp only [RuncPipedIo.new, e1]
    exact streamStep_error_openFds _ _ _ _ _ e1
  | ok sin =>
    have h1 := streamStep_ok_dropFds _ _ _ _ _ _ e1
    rcases e2 : streamStep opts.open_stdout fl.stdout_pipe fl.stdout_chown s1 with ⟨s2, r2⟩
    cases r2 with
    | error u =>
      cases u
      have h2 := streamStep_error_openFds _ _ _ _ _ e2
      simp only [RuncPipedIo.new, e1, e2]
      rw [dropOptPipe_openFds, h2, h1]
    | ok sout =>
      have h2 := streamStep_ok_dropFds _ _ _ _ _ _ e2
      rcases e3 : streamStep opts.open_stderr fl.stderr_pipe fl.stderr_chown s2 with ⟨s3, r3⟩
      cases r3 with
      | error u =>
        cases u
        have h3 := streamStep_error_openFds _ _ _ _ _ e3
        simp only [RuncPipedIo.new, e1, e2, e3]
        rw [dropOptPipe_openFds, dropOptPipe_openFds, h3, h2, h1]
      | ok serr =>
        simp only [RuncPipedIo.new, e1, e2, e3] at h
        cases h

/-- Claim C6 witness: with all three streams requested and the stdout
`pipe(2)` call failing after the stdin pipe was already opened, the
construction fails and the open descriptors are restored to the original
`[0, 1, 2]`. -/
theorem piped_io_new_closes_partial_pipes_on_error_witness :
    (RuncPipedIo.new ⟨false, false, true, false, false, false⟩ ⟨true, true, true⟩
        ⟨10, [0, 1, 2], fun _ => 0⟩).1.openFds = [0, 1, 2] :=
  piped_io_new_closes_partial_pipes_on_error _ _ _ rfl

/-- Claim C7 counterexample: `read_runtime` does NOT succeed when the
runtime-binary-name file is absent — it propagates the open error, so
the result is not a success. -/
theorem read_runtime_absent_is_error :
    exceptIsOk (read_runtime (FileState.absent : FileState (List String))) = false := rfl

/-- Claim C7 (amended): `read_options` returns `Ok(None)` when the
options file cannot be opened (in particular when it does not exist),
but `read_runtime` propagates the open error — absence of the runtime
file IS an error, not a default. -/
theorem read_options_none_read_runtime_error_on_absence :
    (∀ parse, read_options FileState.absent parse = Except.ok none) ∧
    read_runtime (FileState.absent : FileState (List String)) =
      Except.error IoErr.notFound :=
  ⟨fun _ => rfl, rfl⟩

/-- Claim C8 counterexample: the unimplemented verbs do NOT fail with
distinct errors identifying the verb — two different verbs (`exec` and
`pause`) return the very same error value, the generic
`ttrpc::Error::Others("not implemented yet")`. -/
theorem unimplemented_stub_errors_coincide :
    stubContainer.exec = stubContainer.pause ∧
    stubContainer.exec = Except.error (TtrpcErr.others "not implemented yet") :=
  ⟨rfl, rfl⟩

/-- Claim C8 (amended): every unimplemented lifecycle verb of the
registry (exec, pause, resume, resize_pty, checkpoint, update, close_io,
has_pid) fails on every call, but all of them return the identical
generic error `ttrpc::Error::Others("not implemented yet")` — the error
does not identify the verb and uses the crate's catch-all string
variant, not a dedicated not-implemented kind. -/
theorem unimplemented_stubs_uniform_error (c : Container) :
    c.exec = Except.error (TtrpcErr.others "not implemented yet") ∧
    c.pause = Except.error (TtrpcErr.others "not implemented yet") ∧
    c.resume = Except.error (TtrpcErr.others "not implemented yet") ∧
    c.resize_pty = Except.error (TtrpcErr.others "not implemented yet") ∧
    c.checkpoint = Except.error (TtrpcErr.others "not implemented yet") ∧
    c.update = Except.error (TtrpcErr.others "not implemented yet") ∧
    c.close_io = Except.error (TtrpcErr.others "not implemented yet") ∧
    c.has_pid = Except.error (TtrpcErr.others "not implemented yet") :=
  ⟨rfl, rfl, rfl, rfl, rfl, rfl, rfl, rfl⟩

/-- Claim C9: whenever the captured stdout or stderr bytes handed to the
result-conversion code of `RuncClient::command_raw` or
`RuncAsyncClient::command` are not valid UTF-8, both panic (the `unwrap`
on `String::from_utf8`, modelled as `none`) instead of returning a typed
error to the caller. -/
theorem invalid_utf8_output_panics (pid : Nat) (w : WaitOutput) (comb : Bool)
    (h : utf8Validate w.stdout = false ∨ utf8Validate w.stderr = false) :
    RuncClient.command_raw_tail pid w comb = none ∧
    RuncAsyncClient.command_tail w comb = none := by
  have hs : utf8Decode w.stdout = none ∨ utf8Decode w.stderr = none := by
    rcases h with h | h
    · exact Or.inl (by simp [utf8Decode, h])
    · exact Or.inr (by simp [utf8Decode, h])
  constructor
  · unfold RuncClient.command_raw_tail
    rcases hs with h1 | h1
    · rw [h1]
    · rw [h1]
      cases utf8Decode w.stdout <;> rfl
  · unfold RuncAsyncClient.command_tail
    rcases hs with h1 | h1
    · rw [h1]
    · rw [h1]
      cases utf8Decode w.stdout <;> rfl

/-- Claim C9 witness: the single byte 0xFF is not valid UTF-8, and a
wait output carrying it as stdout makes both conversion paths panic. -/
theorem invalid_utf8_output_panics_witness :
    utf8Validate [255] = false ∧
    RuncClient.command_raw_tail 1 ⟨⟨0⟩, [255], []⟩ false = none ∧
    RuncAsyncClient.command_tail ⟨⟨0⟩, [255], []⟩ false = none := by
  have h := invalid_utf8_output_panics 1 ⟨⟨0⟩, [255], []⟩ false (Or.inl (by decide))
  exact ⟨by decide, h.1, h.2⟩

/-- Claim C10: `RuncClient::resume` and `RuncAsyncClient::resume` build
an argument vector whose verb token is "pause" (not "resume") followed
by the container id, so resuming a container invokes the external
binary's pause verb. -/
theorem resume_builds_pause_verb (id : String) :
    RuncClient.resume_args id = ["pause", id] ∧
    RuncAsyncClient.resume_args id = ["pause", id] ∧
    (RuncClient.resume_args id).head? = some "pause" ∧
    ("pause" : String) ≠ "resume" :=
  ⟨rfl, rfl, rfl, by decide⟩

end Spec2Proof
